import Mathlib

/-!
Verification of the change-watch engine of the nacos-cli repository.

The definitions below are a shallow embedding of the Go sources:
  * `src/internal/listener/config_listener.go` — the wire encoding
    (`buildListeningConfigs`, `parseChangedConfigs`), the long-poll call
    (`longPoll`), the watch loop body of `StartListening`, and the
    fingerprint function `CalculateMD5`;
  * `src/internal/sync/skill_syncer.go` — the seeding phase of
    `StartSyncMultiple` and its change-handler closure.

Go strings are byte sequences; the wire-level functions are embedded over
`List Nat` (bytes, each `< 256`).  The watch-loop state machine is embedded
over Lean `String`s, with the HTTP fetch and the caller handler supplied as
oracle functions, so that one evaluation of `processOne` corresponds to one
iteration of the `for _, changed := range changedItems` body.
-/

set_option autoImplicit false

namespace NacosSpec

/-! ## Percent-encoding (Go `net/url.QueryEscape` / `QueryUnescape`)

`buildListeningConfigs` ends with `url.QueryEscape(result)` and
`parseChangedConfigs` starts with `url.QueryUnescape(response)`.  Go's query
component escaping leaves alphanumerics and `-dot_~` alone, encodes a space
as `+`, and percent-encodes every other byte with uppercase hex; unescaping
maps `+` back to a space and rejects a `%` that is not followed by two hex
digits. -/

/-- Bytes Go never escapes in a query component: alphanumerics and `-`, `_`, `.`, `~`. -/
def isUnreserved (b : Nat) : Bool :=
  (48 ≤ b && b ≤ 57) || (65 ≤ b && b ≤ 90) || (97 ≤ b && b ≤ 122) ||
  b == 45 || b == 95 || b == 46 || b == 126

/-- Uppercase hex digit of a nibble, as an ASCII byte. -/
def hexUpper (n : Nat) : Nat := if n < 10 then 48 + n else 55 + n

/-- Escape a single byte the way Go's query-component escaping does. -/
def escapeByte (b : Nat) : List Nat :=
  if isUnreserved b then [b]
  else if b == 32 then [43]
  else [37, hexUpper (b / 16), hexUpper (b % 16)]

/-- `url.QueryEscape` over a byte sequence. -/
def queryEscape (bs : List Nat) : List Nat := (bs.map escapeByte).flatten

/-- Value of an ASCII hex digit (either case), `none` for a non-hex byte. -/
def hexVal (c : Nat) : Option Nat :=
  if 48 ≤ c && c ≤ 57 then some (c - 48)
  else if 65 ≤ c && c ≤ 70 then some (c - 55)
  else if 97 ≤ c && c ≤ 102 then some (c - 87)
  else none

/-- `url.QueryUnescape` over a byte sequence: `+` becomes a space, `%xy`
becomes the byte it encodes, a malformed `%` sequence fails. -/
def queryUnescape : List Nat → Option (List Nat)
  | [] => some []
  | c :: rest =>
    if c == 37 then
      match rest with
      | h :: l :: rest2 =>
        match hexVal h, hexVal l with
        | some hv, some lv => (queryUnescape rest2).map (fun t => (hv * 16 + lv) :: t)
        | _, _ => none
      | _ => none
    else if c == 43 then (queryUnescape rest).map (fun t => 32 :: t)
    else (queryUnescape rest).map (fun t => c :: t)

/-! ## Delimiter splitting (`strings.Split`) -/

/-- `strings.Split` on a one-byte separator: `splitOnByte d bs` returns the
groups between occurrences of `d` (always nonempty as a list of groups). -/
def splitOnByte (d : Nat) : List Nat → List (List Nat)
  | [] => [[]]
  | b :: rest =>
    if b == d then [] :: splitOnByte d rest
    else
      match splitOnByte d rest with
      | [] => [[b]]
      | g :: gs => (b :: g) :: gs

/-! ## Wire items and the Listening-Configs encoding
(config_listener.go lines 271–321) -/

/-- `ConfigItem` as it crosses the wire: every field a Go string, i.e. a
byte sequence.  `md5` holds the advertised fingerprint. -/
structure WireItem where
  dataID : List Nat
  group  : List Nat
  tenant : List Nat
  md5    : List Nat
  deriving DecidableEq, Repr

/-- One serialized entry: `dataId\x02group\x02md5\x02tenant` when the tenant
is non-empty, `dataId\x02group\x02md5` when it is empty
(config_listener.go lines 275–282). -/
def entryBytes (it : WireItem) : List Nat :=
  if it.tenant = [] then it.dataID ++ 2 :: it.group ++ 2 :: it.md5
  else it.dataID ++ 2 :: it.group ++ 2 :: it.md5 ++ 2 :: it.tenant

/-- `buildListeningConfigs`: each entry is followed by the `\x01` terminator,
the parts are concatenated, and the result is percent-encoded. -/
def buildListeningConfigs (items : List WireItem) : List Nat :=
  queryEscape ((items.map (fun it => entryBytes it ++ [1])).flatten)

/-- One line of the decoded response (config_listener.go lines 301–317):
empty lines are skipped, a line with fewer than two `\x02`-separated fields
is discarded, tenant is taken from a fourth field when present. -/
def parseLine (line : List Nat) : Option WireItem :=
  if line = [] then none
  else
    let fields := splitOnByte 2 line
    if 2 ≤ fields.length then
      some { dataID := fields.getD 0 []
             group  := fields.getD 1 []
             tenant := if 4 ≤ fields.length then fields.getD 3 [] else []
             md5    := [] }
    else none

/-- `parseChangedConfigs`: percent-decode (returning no items on a decode
failure), split on `\x01`, parse each line. -/
def parseChangedConfigs (response : List Nat) : List WireItem :=
  match queryUnescape response with
  | none => []
  | some decoded => (splitOnByte 1 decoded).filterMap parseLine

/-- The (data-id, group, tenant) identity triple of a wire item. -/
def wireTriple (it : WireItem) : List Nat × List Nat × List Nat :=
  (it.dataID, it.group, it.tenant)

/-- A field is wire-safe when its bytes are actual bytes and avoid the two
reserved delimiters `\x01` and `\x02`. -/
def fieldSafe (f : List Nat) : Prop := ∀ b ∈ f, b < 256 ∧ b ≠ 1 ∧ b ≠ 2

/-- All four fields of an item are wire-safe. -/
def itemSafe (it : WireItem) : Prop :=
  fieldSafe it.dataID ∧ fieldSafe it.group ∧ fieldSafe it.tenant ∧ fieldSafe it.md5

/-! ## The long-poll call (config_listener.go lines 188–229)

The HTTP exchange is abstracted to the response the Go code inspects: a
status code and a body.  The Go function returns `(nil, error)` on a
non-200 status — the error text carries the status and the body — and
`(nil, nil)` on a 200 with an empty body. -/

/-- The observable response of one long-poll HTTP exchange. -/
structure HttpResponse where
  status : Nat
  body   : List Nat
  deriving DecidableEq, Repr

/-- Outcome of `longPoll`: either an error carrying the status and body, or
a (possibly empty) list of change notifications. -/
inductive LongPollResult where
  | transportError (status : Nat) (body : List Nat)
  | changes (items : List WireItem)
  deriving DecidableEq, Repr

/-- `longPoll`, from the point where the response is available. -/
def longPoll (resp : HttpResponse) : LongPollResult :=
  if resp.status ≠ 200 then .transportError resp.status resp.body
  else if resp.body = [] then .changes []
  else .changes (parseChangedConfigs resp.body)

/-! ## Substring tests (`strings.Contains`, used for error classification) -/

/-- `needle` is a prefix of `haystack` (over characters). -/
def isPrefixList : List Char → List Char → Bool
  | [], _ => true
  | _ :: _, [] => false
  | a :: as, b :: bs => a == b && isPrefixList as bs

/-- `needle` occurs somewhere inside `haystack` (over characters). -/
def containsSeq (needle : List Char) : List Char → Bool
  | [] => isPrefixList needle []
  | c :: rest => isPrefixList needle (c :: rest) || containsSeq needle rest

/-- `strings.Contains s sub`. -/
def strContains (s sub : String) : Bool := containsSeq sub.toList s.toList

/-- The not-found classification used at config_listener.go line 138 and
skill_syncer.go lines 58 and 136: the error text contains `404` or
`not exist`. -/
def isNotFoundErr (msg : String) : Bool :=
  strContains msg "404" || strContains msg "not exist"

/-! ## The watch loop of `StartListening` (config_listener.go lines 80–186)

`currentItems` is a map from the key `dataID_group_tenant` to the watched
item; it is embedded as an association list (Go map iteration order is
unspecified; the embedding iterates in list order).  The HTTP fetch
(`getConfig`) and the caller handler are oracle functions; `processOne`
records each call it makes as an `Event`, so the theorems can speak about
which arguments the code passed. -/

/-- A watched configuration item (config_listener.go lines 15–20). -/
structure ConfigItem where
  dataID : String
  group  : String
  tenant : String
  md5    : String
  deriving DecidableEq, Repr

/-- A change notification as delivered by the long poll. -/
structure Notification where
  dataID : String
  group  : String
  tenant : String
  deriving DecidableEq, Repr

/-- The `currentItems` map, as an association list keyed by `mkKey`. -/
abbrev WatchMap := List (String × ConfigItem)

/-- `fmt.Sprintf("%s_%s_%s", dataID, group, tenant)`. -/
def mkKey (dataID group tenant : String) : String :=
  dataID ++ "_" ++ group ++ "_" ++ tenant

/-- Map lookup (`currentItems[key]`). -/
def mapLookup (k : String) : WatchMap → Option ConfigItem
  | [] => none
  | (k', v) :: rest => if k' == k then some v else mapLookup k rest

/-- In-place fingerprint update through the stored pointer
(`item.MD5 = newMD5`); leaves the map unchanged when the key is absent. -/
def mapSetMD5 (k newMD5 : String) : WatchMap → WatchMap
  | [] => []
  | (k', v) :: rest =>
    if k' == k then (k', { v with md5 := newMD5 }) :: rest
    else (k', v) :: mapSetMD5 k newMD5 rest

/-- Tenant normalization (config_listener.go lines 121–131): when the
notification's tenant is empty, adopt the tenant of the first stored item
with the same data-id and group; otherwise keep the notification's tenant. -/
def normalizeTenant (m : WatchMap) (ch : Notification) : String :=
  if ch.tenant == "" then
    match m.find? (fun p => p.2.dataID == ch.dataID && p.2.group == ch.group) with
    | some p => p.2.tenant
    | none => ""
  else ch.tenant

/-- Result of one `getConfig` call: content and fingerprint, or an error
message. -/
inductive FetchResult where
  | ok (content md5 : String)
  | err (msg : String)
  deriving DecidableEq, Repr

/-- The calls the loop body makes, in order, with the arguments it passes. -/
inductive Event where
  | fetchCall (dataID group tenant : String)
  | handlerCall (dataID group tenant : String) (ok : Bool)
  deriving DecidableEq, Repr

/-- The tenant argument carried by an event. -/
def Event.tenantArg : Event → String
  | .fetchCall _ _ t => t
  | .handlerCall _ _ t _ => t

/-- Whether an event is a handler dispatch. -/
def Event.isHandlerCall : Event → Bool
  | .fetchCall _ _ _ => false
  | .handlerCall _ _ _ _ => true

/-- The duplicate-suppression check (config_listener.go lines 163–168):
whether the stored fingerprint for the notification's key equals the newly
fetched one (`false` when the key is not tracked). -/
def fingerMatches (m : WatchMap) (ch : Notification) (newMD5 : String) : Bool :=
  match mapLookup (mkKey ch.dataID ch.group (normalizeTenant m ch)) m with
  | some item => item.md5 == newMD5
  | none => false

/-- One iteration of the `for _, changed := range changedItems` body
(config_listener.go lines 120–182).  `fetch` is `l.getConfig`,
`handlerOK d g t = true` means the caller handler returned `nil`. -/
def processOne (fetch : String → String → String → FetchResult)
    (handlerOK : String → String → String → Bool)
    (m : WatchMap) (ch : Notification) : WatchMap × List Event :=
  let k := mkKey ch.dataID ch.group (normalizeTenant m ch)
  let fe := Event.fetchCall ch.dataID ch.group ch.tenant
  match fetch ch.dataID ch.group ch.tenant with
  | .err msg =>
    if isNotFoundErr msg then
      match mapLookup k m with
      | some item =>
        if item.md5 == "" then (m, [fe])
        else
          let hOK := handlerOK ch.dataID ch.group ch.tenant
          (mapSetMD5 k "" m, [fe, .handlerCall ch.dataID ch.group ch.tenant hOK])
      | none => (m, [fe])
    else (m, [fe])
  | .ok _content newMD5 =>
    if fingerMatches m ch newMD5 then (m, [fe])
    else
      let hOK := handlerOK ch.dataID ch.group ch.tenant
      if hOK then
        (mapSetMD5 k newMD5 m, [fe, .handlerCall ch.dataID ch.group ch.tenant hOK])
      else (m, [fe, .handlerCall ch.dataID ch.group ch.tenant hOK])

/-- Sequential processing of one batch of notifications. -/
def processBatch (fetch : String → String → String → FetchResult)
    (handlerOK : String → String → String → Bool) :
    WatchMap → List Notification → WatchMap × List Event
  | m, [] => (m, [])
  | m, ch :: rest =>
    let r := processOne fetch handlerOK m ch
    let r' := processBatch fetch handlerOK r.1 rest
    (r'.1, r.2 ++ r'.2)

/-- What the loop observes at one iteration: cancellation already signaled
at the top-of-loop `select`, a long-poll error (with whether cancellation
was observed once the call returned), or a successful poll. -/
inductive LoopStep where
  | cancelledAtTop
  | pollErr (cancelledDuring : Bool) (msg : String)
  | pollOk (changed : List Notification)

/-- Externally visible loop actions. -/
inductive LoopEvent where
  | poll
  | sleep (secs : Nat)
  | stop
  deriving DecidableEq, Repr

/-- The `for { select { … } }` loop of `StartListening` (lines 97–185),
driven by a finite trace of per-iteration observations.  Returns the
emitted actions, the final map, and the value returned by the Go function
(every `return` in the source is `return nil`, hence `none`). -/
def watchLoop (fetch : String → String → String → FetchResult)
    (handlerOK : String → String → String → Bool) :
    WatchMap → List LoopStep → List LoopEvent × WatchMap × Option String
  | m, [] => ([], m, none)
  | m, .cancelledAtTop :: _ => ([.stop], m, none)
  | m, .pollErr cancelledDuring _msg :: rest =>
    if cancelledDuring then ([.poll, .stop], m, none)
    else
      let r := watchLoop fetch handlerOK m rest
      (.poll :: .sleep 5 :: r.1, r.2)
  | m, .pollOk changed :: rest =>
    let b := processBatch fetch handlerOK m changed
    let r := watchLoop fetch handlerOK b.1 rest
    (.poll :: r.1, r.2)

/-! ## The fingerprint function (config_listener.go lines 323–332)

`CalculateMD5` is `fmt.Sprintf("%x", md5.Sum([]byte(content)))`: the MD5
digest (RFC 1321, as computed by Go's `crypto/md5`) of the content bytes,
printed as lowercase hex.  The digest is embedded below over `List Nat`
byte sequences with all word arithmetic taken modulo `2^32`. -/

/-- `2^32`, the word modulus of MD5. -/
def w32 : Nat := 4294967296

/-- The 64 sine-derived round constants of MD5. -/
def md5K : List Nat :=
  [0xd76aa478, 0xe8c7b756, 0x242070db, 0xc1bdceee,
   0xf57c0faf, 0x4787c62a, 0xa8304613, 0xfd469501,
   0x698098d8, 0x8b44f7af, 0xffff5bb1, 0x895cd7be,
   0x6b901122, 0xfd987193, 0xa679438e, 0x49b40821,
   0xf61e2562, 0xc040b340, 0x265e5a51, 0xe9b6c7aa,
   0xd62f105d, 0x02441453, 0xd8a1e681, 0xe7d3fbc8,
   0x21e1cde6, 0xc33707d6, 0xf4d50d87, 0x455a14ed,
   0xa9e3e905, 0xfcefa3f8, 0x676f02d9, 0x8d2a4c8a,
   0xfffa3942, 0x8771f681, 0x6d9d6122, 0xfde5380c,
   0xa4beea44, 0x4bdecfa9, 0xf6bb4b60, 0xbebfbc70,
   0x289b7ec6, 0xeaa127fa, 0xd4ef3085, 0x04881d05,
   0xd9d4d039, 0xe6db99e5, 0x1fa27cf8, 0xc4ac5665,
   0xf4292244, 0x432aff97, 0xab9423a7, 0xfc93a039,
   0x655b59c3, 0x8f0ccc92, 0xffeff47d, 0x85845dd1,
   0x6fa87e4f, 0xfe2ce6e0, 0xa3014314, 0x4e0811a1,
   0xf7537e82, 0xbd3af235, 0x2ad7d2bb, 0xeb86d391]

/-- Per-operation left-rotation amounts. -/
def md5s (i : Nat) : Nat :=
  if i < 16 then [7, 12, 17, 22].getD (i % 4) 0
  else if i < 32 then [5, 9, 14, 20].getD (i % 4) 0
  else if i < 48 then [4, 11, 16, 23].getD (i % 4) 0
  else [6, 10, 15, 21].getD (i % 4) 0

/-- Message-word schedule. -/
def md5g (i : Nat) : Nat :=
  if i < 16 then i
  else if i < 32 then (5 * i + 1) % 16
  else if i < 48 then (3 * i + 5) % 16
  else (7 * i) % 16

/-- The four round functions F, G, H, I (complement is xor with the all-ones
32-bit word). -/
def md5f (i b c d : Nat) : Nat :=
  if i < 16 then (b &&& c) ||| (((w32 - 1) ^^^ b) &&& d)
  else if i < 32 then (d &&& b) ||| (((w32 - 1) ^^^ d) &&& c)
  else if i < 48 then b ^^^ c ^^^ d
  else c ^^^ (b ||| ((w32 - 1) ^^^ d))

/-- 32-bit left rotation. -/
def rotl32 (x s : Nat) : Nat :=
  ((x % w32) * 2 ^ s % w32 + (x % w32) / 2 ^ (32 - s)) % w32

/-- The four-word chaining state. -/
structure MD5State where
  a : Nat
  b : Nat
  c : Nat
  d : Nat
  deriving DecidableEq, Repr

/-- Little-endian 32-bit word `j` of a 64-byte block. -/
def md5Word (block : List Nat) (j : Nat) : Nat :=
  block.getD (4 * j) 0 + 256 * block.getD (4 * j + 1) 0 +
  65536 * block.getD (4 * j + 2) 0 + 16777216 * block.getD (4 * j + 3) 0

/-- One of the 64 operations on a block. -/
def md5Op (block : List Nat) (st : MD5State) (i : Nat) : MD5State :=
  let f := (md5f i st.b st.c st.d + st.a + md5K.getD i 0 +
            md5Word block (md5g i)) % w32
  { a := st.d, b := (st.b + rotl32 f (md5s i)) % w32, c := st.b, d := st.c }

/-- Process one 64-byte block and add the result into the chaining state. -/
def md5Block (st : MD5State) (block : List Nat) : MD5State :=
  let r := (List.range 64).foldl (md5Op block) st
  { a := (st.a + r.a) % w32, b := (st.b + r.b) % w32,
    c := (st.c + r.c) % w32, d := (st.d + r.d) % w32 }

/-- Number of zero bytes of padding after the `0x80` byte. -/
def md5PadZeros (len : Nat) : Nat := (119 - len % 64) % 64

/-- The trailing 64-bit little-endian encoding of the bit length. -/
def md5LenBytes (len : Nat) : List Nat :=
  let bits := len * 8 % 2 ^ 64
  [bits % 256, bits / 2 ^ 8 % 256, bits / 2 ^ 16 % 256, bits / 2 ^ 24 % 256,
   bits / 2 ^ 32 % 256, bits / 2 ^ 40 % 256, bits / 2 ^ 48 % 256,
   bits / 2 ^ 56 % 256]

/-- MD5 padding: `0x80`, zeros to 56 mod 64, then the bit length. -/
def md5Pad (msg : List Nat) : List Nat :=
  msg ++ 128 :: (List.replicate (md5PadZeros msg.length) 0 ++ md5LenBytes msg.length)

/-- Split a byte sequence into 64-byte chunks. -/
def chunks64 (l : List Nat) : List (List Nat) :=
  (List.range ((l.length + 63) / 64)).map (fun i => (l.drop (64 * i)).take 64)

/-- Little-endian byte serialization of a 32-bit word. -/
def wordLE (x : Nat) : List Nat :=
  [x % 256, x / 2 ^ 8 % 256, x / 2 ^ 16 % 256, x / 2 ^ 24 % 256]

/-- The 16-byte MD5 digest of a byte sequence. -/
def md5Digest (msg : List Nat) : List Nat :=
  let st := (chunks64 (md5Pad msg)).foldl md5Block
    { a := 0x67452301, b := 0xefcdab89, c := 0x98badcfe, d := 0x10325476 }
  wordLE st.a ++ wordLE st.b ++ wordLE st.c ++ wordLE st.d

/-- Lowercase hex digit of a nibble, as an ASCII byte. -/
def hexLower (n : Nat) : Nat := if n < 10 then 48 + n else 87 + n

/-- `CalculateMD5`: the digest printed as 32 lowercase hex characters
(ASCII bytes). -/
def CalculateMD5 (content : List Nat) : List Nat :=
  (md5Digest content).foldr
    (fun b acc => hexLower (b / 16) :: hexLower (b % 16) :: acc) []

/-- `CalculateMD5` over a Lean string: the Go code hashes the UTF-8 bytes
of the string and returns the hex digest as a string. -/
def CalculateMD5Str (content : String) : String :=
  String.mk ((CalculateMD5 (content.toUTF8.toList.map (fun b => b.toNat))).map
    Char.ofNat)

/-! ## The sync orchestrator (skill_syncer.go lines 41–170)

The seeding phase of `StartSyncMultiple` is embedded with the per-record
collaborators as oracles: `fetch name` is the result of
`s.client.GetConfig("skill.json", "skill_" ++ name)` as a
`(content, error)` pair, `localExists name` is whether the local mirror
directory exists, and `downloadOK name` is whether the initial
`GetSkill` download succeeds. -/

/-- Oracles for the seeding phase. -/
structure SeedEnv where
  fetch : String → String × Option String
  localExists : String → Bool
  downloadOK : String → Bool

/-- Seed one record (skill_syncer.go lines 51–107).  Returns the watch item
added for it, if any, and the list of stale local mirrors whose removal was
attempted. -/
def seedOne (env : SeedEnv) (ns name : String) : Option ConfigItem × List String :=
  let group := "skill_" ++ name
  match env.fetch name with
  | (_, some msg) =>
    if isNotFoundErr msg then
      (some { dataID := "skill.json", group := group, tenant := ns, md5 := "" },
       if env.localExists name then [name] else [])
    else (none, [])
  | (content, none) =>
    if content == "" then (none, [])
    else if env.downloadOK name then
      (some { dataID := "skill.json", group := group, tenant := ns,
              md5 := CalculateMD5Str content }, [])
    else (none, [])

/-- Seed every record in order, collecting the watch items and the
attempted stale-mirror removals. -/
def seedAll (env : SeedEnv) (ns : String) :
    List String → List ConfigItem × List String
  | [] => ([], [])
  | n :: rest =>
    let r := seedOne env ns n
    let r' := seedAll env ns rest
    (match r.1 with
     | some it => it :: r'.1
     | none => r'.1,
     r.2 ++ r'.2)

/-- Outcome of `StartSyncMultiple` up to the hand-off to the listener
(whose own return value is always `nil`). -/
inductive SyncStartResult where
  | failed (msg : String)
  | listening (items : List ConfigItem) (removedStale : List String)
  deriving DecidableEq, Repr

/-- Whether the orchestrator returned an error. -/
def SyncStartResult.isFailed : SyncStartResult → Bool
  | .failed _ => true
  | .listening _ _ => false

/-- `StartSyncMultiple` (skill_syncer.go lines 41–111): fail on an empty
name list, seed each record, fail when no watch item was produced. -/
def startSyncMultiple (env : SeedEnv) (ns : String) (names : List String) :
    SyncStartResult :=
  if names = [] then .failed "no skills specified"
  else
    let r := seedAll env ns names
    if r.1 = [] then .failed "no skills specified for monitoring"
    else .listening r.1 r.2

/-! ## The orchestrator's change handler (skill_syncer.go lines 123–159)

The closure's collaborators are oracles: `getConfig dataID grp` is the
`(content, error)` result of `s.client.GetConfig`, `getSkillOK` is whether
`GetSkill` succeeds.  The outcome distinguishes the nil-error dereference:
when `err == nil` and `content == ""` the Go code evaluates `err.Error()`
on a nil interface value, which panics. -/

/-- Possible outcomes of one invocation of the handler closure. -/
inductive HandlerOutcome where
  | ok
  | fetchFailed (msg : String)
  | syncFailed (name : String)
  | panicNilErrDeref
  deriving DecidableEq, Repr

/-- The handler closure defined in `StartSyncMultiple`. -/
def syncChangeHandler (getConfig : String → String → String × Option String)
    (getSkillOK : String → Bool) (dataID grp _tenant : String) :
    HandlerOutcome :=
  let skillName :=
    if isPrefixList "skill_".toList grp.toList then String.mk (grp.toList.drop 6)
    else ""
  if skillName == "" then .ok
  else
    let r := getConfig dataID grp
    if r.2.isSome || r.1 == "" then
      match r.2 with
      | some e => if isNotFoundErr e then .ok else .fetchFailed e
      | none => .panicNilErrDeref
    else if getSkillOK skillName then .ok
    else .syncFailed skillName

/-! ## Concrete inputs used by the witnesses and counterexamples -/

/-- First message of the classic 128-byte MD5 collision pair
(Wang et al.); both messages hash to `79054025255fb1a26e4bc422aef54eb4`. -/
def collideA : List Nat :=
  [209,49,221,2,197,230,238,196,105,61,154,6,152,175,249,92,
   47,202,181,135,18,70,126,171,64,4,88,62,184,251,127,137,
   85,173,52,6,9,244,179,2,131,228,136,131,37,113,65,90,
   8,81,37,232,247,205,201,159,217,29,189,242,128,55,60,91,
   216,130,62,49,86,52,143,91,174,109,172,212,54,201,25,198,
   221,83,226,180,135,218,3,253,2,57,99,6,210,72,205,160,
   233,159,51,66,15,87,126,232,206,84,182,112,128,168,13,30,
   198,152,33,188,182,168,131,147,150,249,101,43,111,247,42,112]

/-- Second message of the collision pair; differs from `collideA` in six
bytes yet has the same MD5 digest. -/
def collideB : List Nat :=
  [209,49,221,2,197,230,238,196,105,61,154,6,152,175,249,92,
   47,202,181,7,18,70,126,171,64,4,88,62,184,251,127,137,
   85,173,52,6,9,244,179,2,131,228,136,131,37,241,65,90,
   8,81,37,232,247,205,201,159,217,29,189,114,128,55,60,91,
   216,130,62,49,86,52,143,91,174,109,172,212,54,201,25,198,
   221,83,226,52,135,218,3,253,2,57,99,6,210,72,205,160,
   233,159,51,66,15,87,126,232,206,84,182,112,128,40,13,30,
   198,152,33,188,182,168,131,147,150,249,101,171,111,247,42,112]

/-- A fetch oracle that always fails with a not-found error. -/
def wFetchNF : String → String → String → FetchResult :=
  fun _ _ _ => .err "config not exist"

/-- A fetch oracle that always succeeds with fingerprint `f1`. -/
def wFetchOK : String → String → String → FetchResult :=
  fun _ _ _ => .ok "content" "f1"

/-- A fetch oracle that always succeeds with fingerprint `f2`. -/
def wFetchOK2 : String → String → String → FetchResult :=
  fun _ _ _ => .ok "content2" "f2"

/-- A handler oracle that always succeeds. -/
def wHandlerTrue : String → String → String → Bool := fun _ _ _ => true

/-- A handler oracle that always fails. -/
def wHandlerFalse : String → String → String → Bool := fun _ _ _ => false

/-- A watch map with one entry carrying a non-empty fingerprint. -/
def wMapA : WatchMap :=
  [("d_g_t", { dataID := "d", group := "g", tenant := "t", md5 := "f1" })]

/-- The same watched key with an already-empty fingerprint. -/
def wMapB : WatchMap :=
  [("d_g_t", { dataID := "d", group := "g", tenant := "t", md5 := "" })]

/-- A notification matching the entry of `wMapA` / `wMapB`. -/
def wChT : Notification := { dataID := "d", group := "g", tenant := "t" }

/-- A second watched entry, for the C9 witness. -/
def wMapC : WatchMap :=
  [("d2_g2_t2", { dataID := "d2", group := "g2", tenant := "t2", md5 := "f1" })]

/-- A notification matching the entry of `wMapC`. -/
def wChT2 : Notification := { dataID := "d2", group := "g2", tenant := "t2" }

/-- Fetch oracle for the C1 counterexample: a not-found failure. -/
def c1Fetch : String → String → String → FetchResult :=
  fun _ _ _ => .err "get config returned status 404"

/-- Watch map for the C1 counterexample. -/
def c1Map : WatchMap :=
  [("skill.json_skill_demo_",
    { dataID := "skill.json", group := "skill_demo", tenant := "", md5 := "f1" })]

/-- Notification for the C1 counterexample. -/
def c1Ch : Notification := { dataID := "skill.json", group := "skill_demo", tenant := "" }

/-- Fetch oracle for the C2 scenario: a successful fetch with a new
fingerprint. -/
def c2Fetch : String → String → String → FetchResult :=
  fun _ _ _ => .ok "newContent" "f2"

/-- Watch map for the C2 scenario: the entry is stored under the non-empty
tenant `tenant1`. -/
def c2Map : WatchMap :=
  [("skill.json_skill_demo_tenant1",
    { dataID := "skill.json", group := "skill_demo", tenant := "tenant1", md5 := "f1" })]

/-- Notification for the C2 scenario: the server omitted the tenant. -/
def c2Ch : Notification := { dataID := "skill.json", group := "skill_demo", tenant := "" }

/-- Wire items for the C5 witness: one with an empty tenant (omitted on the
wire), one with a non-empty tenant. -/
def wItems : List WireItem :=
  [{ dataID := [100], group := [103], tenant := [], md5 := [102] },
   { dataID := [100, 50], group := [103, 50], tenant := [116], md5 := [102, 50] }]

/-- A failing HTTP response for the C6 witness. -/
def wResp500 : HttpResponse := { status := 500, body := [104, 105] }

/-- A successful HTTP response with an empty body. -/
def wResp200Empty : HttpResponse := { status := 200, body := [] }

/-- A successful HTTP response whose body is undecodable (a lone `%`). -/
def wRespBad : HttpResponse := { status := 200, body := [37] }

/-- Seeding oracles for the C7 witness: record `a` is absent remotely with
a stale local mirror, record `b` fails with a non-not-found error. -/
def wSeedEnv : SeedEnv :=
  { fetch := fun n =>
      if n == "a" then ("", some "config not exist")
      else ("", some "connection refused"),
    localExists := fun n => n == "a",
    downloadOK := fun _ => true }

/-- `GetConfig` oracle for the C3 failing input: no error and empty
content, as a 200 response with an empty body produces. -/
def c3GetConfig : String → String → String × Option String :=
  fun _ _ => ("", none)

/-! ## Sanity checks of the embedding -/

set_option maxRecDepth 100000 in
/-- RFC 1321 test vector: the fingerprint of the empty content. -/
theorem md5_vector_empty :
    String.mk ((CalculateMD5 []).map Char.ofNat) =
      "d41d8cd98f00b204e9800998ecf8427e" := by decide

set_option maxRecDepth 100000 in
/-- RFC 1321 test vector: the fingerprint of `abc`. -/
theorem md5_vector_abc :
    String.mk ((CalculateMD5 [97, 98, 99]).map Char.ofNat) =
      "900150983cd24fb0d6963f7d28e17f72" := by decide

/-! ## Association-list helper lemmas -/

/-- Updating the fingerprint stored at `k` is visible at `k`. -/
theorem mapLookup_mapSetMD5_self (k v : String) (m : WatchMap)
    (item : ConfigItem) (h : mapLookup k m = some item) :
    mapLookup k (mapSetMD5 k v m) = some { item with md5 := v } := by
  induction m with
  | nil => simp [mapLookup] at h
  | cons p rest ih =>
    obtain ⟨k', it⟩ := p
    by_cases hk : k' = k
    · subst hk
      simp [mapLookup] at h
      simp [mapSetMD5, mapLookup, h]
    · simp [mapLookup, hk] at h
      simp [mapSetMD5, mapLookup, hk, ih h]

/-- Updating the fingerprint stored at `k` does not change any other key. -/
theorem mapLookup_mapSetMD5_ne (k k' v : String) (m : WatchMap)
    (h : k' ≠ k) : mapLookup k' (mapSetMD5 k v m) = mapLookup k' m := by
  induction m with
  | nil => simp [mapSetMD5]
  | cons p rest ih =>
    obtain ⟨k'', it⟩ := p
    by_cases hk : k'' = k
    · subst hk
      have hne : k'' ≠ k' := fun hx => h hx.symm
      simp [mapSetMD5, mapLookup, hne]
    · by_cases hk2 : k'' = k'
      · subst hk2
        simp [mapSetMD5, mapLookup, hk]
      · simp [mapSetMD5, mapLookup, hk, hk2, ih]

/-! ## Claim theorems -/

/-- C3: in the orchestrator's change handler, on an input where the fetch
returns no error but empty content, the code reaches `err.Error()` with a
nil error value: the handler is not total on that input, it panics.  The
theorem evaluates the handler closure at the failing input
(`GetConfig` returning `("", nil)`, which a 200 response with an empty body
produces). -/
theorem c3_handler_nil_error_deref :
    syncChangeHandler c3GetConfig (fun _ => true) "skill.json" "skill_demo" ""
      = .panicNilErrDeref := by decide

/-- C8: on a long-poll transport error without cancellation the loop sleeps
the fixed 5-second backoff and then re-enters the loop (retrying the poll);
if cancellation was observed when the failing call returned, or is observed
at the top of the loop after the backoff sleep (cancellation signaled
during the wait), the loop stops before any retry and returns `nil`
(no error). -/
theorem c8_backoff_and_cancel (fetch : String → String → String → FetchResult)
    (handlerOK : String → String → String → Bool) (m : WatchMap)
    (msg : String) (rest : List LoopStep) :
    watchLoop fetch handlerOK m (.pollErr false msg :: rest) =
      (.poll :: .sleep 5 :: (watchLoop fetch handlerOK m rest).1,
       (watchLoop fetch handlerOK m rest).2)
    ∧ watchLoop fetch handlerOK m (.pollErr true msg :: rest)
        = ([.poll, .stop], m, none)
    ∧ watchLoop fetch handlerOK m (.pollErr false msg :: .cancelledAtTop :: rest)
        = ([.poll, .sleep 5, .stop], m, none) := by
  refine ⟨?_, ?_, ?_⟩ <;> simp [watchLoop]

/-- C9: when the fetch succeeds and the fetched fingerprint equals the
Watch Set's stored fingerprint for the notification's key, the resolution
is `Unchanged`: the handler is not invoked (the only event is the fetch
call) and the map is returned untouched.  Delivering the same notification
a second time with no intervening content change therefore dispatches
nothing. -/
theorem c9_unchanged_suppressed
    (fetch : String → String → String → FetchResult)
    (handlerOK : String → String → String → Bool)
    (m : WatchMap) (ch : Notification) (content newMD5 : String)
    (item : ConfigItem)
    (hf : fetch ch.dataID ch.group ch.tenant = .ok content newMD5)
    (hl : mapLookup (mkKey ch.dataID ch.group (normalizeTenant m ch)) m
            = some item)
    (hmd : item.md5 = newMD5) :
    processOne fetch handlerOK m ch =
      (m, [.fetchCall ch.dataID ch.group ch.tenant]) := by
  have hu : fingerMatches m ch newMD5 = true := by
    simp [fingerMatches, hl, hmd]
  simp [processOne, hf, hu]

/-- Witness for C9 at a concrete input. -/
theorem c9_witness :
    processOne wFetchOK wHandlerTrue wMapC wChT2 =
      (wMapC, [.fetchCall "d2" "g2" "t2"]) :=
  c9_unchanged_suppressed wFetchOK wHandlerTrue wMapC wChT2 "content" "f1"
    { dataID := "d2", group := "g2", tenant := "t2", md5 := "f1" }
    rfl (by decide) rfl

/-- C4: a not-found fetch for a tracked key with a non-empty stored
fingerprint dispatches the deletion handler exactly once and resets the
stored fingerprint to empty; a not-found fetch while the stored fingerprint
is already empty dispatches nothing and leaves the map untouched, so no
further deletion is reported until the fingerprint becomes non-empty
again. -/
theorem c4_delete_once
    (fetch : String → String → String → FetchResult)
    (handlerOK : String → String → String → Bool)
    (m : WatchMap) (ch : Notification) (msg : String) (item : ConfigItem)
    (hf : fetch ch.dataID ch.group ch.tenant = .err msg)
    (hnf : isNotFoundErr msg = true)
    (hl : mapLookup (mkKey ch.dataID ch.group (normalizeTenant m ch)) m
            = some item) :
    (item.md5 ≠ "" →
      processOne fetch handlerOK m ch =
        (mapSetMD5 (mkKey ch.dataID ch.group (normalizeTenant m ch)) "" m,
         [.fetchCall ch.dataID ch.group ch.tenant,
          .handlerCall ch.dataID ch.group ch.tenant
            (handlerOK ch.dataID ch.group ch.tenant)]))
    ∧ (item.md5 ≠ "" →
        mapLookup (mkKey ch.dataID ch.group (normalizeTenant m ch))
          (processOne fetch handlerOK m ch).1 = some { item with md5 := "" })
    ∧ (item.md5 = "" →
        processOne fetch handlerOK m ch =
          (m, [.fetchCall ch.dataID ch.group ch.tenant])) := by
  refine ⟨fun hne => ?_, fun hne => ?_, fun heq => ?_⟩
  · simp [processOne, hf, hnf, hl, hne]
  · simp [processOne, hf, hnf, hl, hne]
    exact mapLookup_mapSetMD5_self _ "" m item hl
  · simp [processOne, hf, hnf, hl, heq]

/-- Witness for C4 at concrete inputs: the first not-found dispatches once
and empties the fingerprint, a second not-found (fingerprint already empty)
dispatches nothing. -/
theorem c4_witness :
    processOne wFetchNF wHandlerTrue wMapA wChT =
      (mapSetMD5 (mkKey "d" "g" (normalizeTenant wMapA wChT)) "" wMapA,
       [.fetchCall "d" "g" "t", .handlerCall "d" "g" "t" (wHandlerTrue "d" "g" "t")])
    ∧ processOne wFetchNF wHandlerTrue wMapB wChT =
        (wMapB, [.fetchCall "d" "g" "t"]) :=
  ⟨(c4_delete_once wFetchNF wHandlerTrue wMapA wChT "config not exist"
      { dataID := "d", group := "g", tenant := "t", md5 := "f1" }
      rfl (by decide) (by decide)).1 (by decide),
   (c4_delete_once wFetchNF wHandlerTrue wMapB wChT "config not exist"
      { dataID := "d", group := "g", tenant := "t", md5 := "" }
      rfl (by decide) (by decide)).2.2 rfl⟩

/-- C1 counterexample: a dispatched `Deleted` verdict whose handler fails
(the handler event carries `false`) nevertheless has its stored fingerprint
reset from `f1` to the empty string — config_listener.go line 151 runs
`item.MD5 = ""` regardless of the handler error, so the fingerprint is not
left unchanged and is updated without handler success, refuting the claim
at this input. -/
theorem c1_counterexample :
    (processOne c1Fetch wHandlerFalse c1Map c1Ch).2 =
      [.fetchCall "skill.json" "skill_demo" "",
       .handlerCall "skill.json" "skill_demo" "" false]
    ∧ mapLookup "skill.json_skill_demo_"
        (processOne c1Fetch wHandlerFalse c1Map c1Ch).1 =
        some { dataID := "skill.json", group := "skill_demo", tenant := "",
               md5 := "" }
    ∧ mapLookup "skill.json_skill_demo_" c1Map =
        some { dataID := "skill.json", group := "skill_demo", tenant := "",
               md5 := "f1" } := by decide

/-- C1 amended: for an `Updated` dispatch the stored fingerprint is
advanced only when the handler succeeds and left unchanged when it fails;
for a `Deleted` dispatch the stored fingerprint is reset to empty
regardless of the handler's outcome. -/
theorem c1_fingerprint_update_policy
    (fetch : String → String → String → FetchResult)
    (handlerOK : String → String → String → Bool)
    (m : WatchMap) (ch : Notification) :
    (∀ content newMD5,
      fetch ch.dataID ch.group ch.tenant = .ok content newMD5 →
      fingerMatches m ch newMD5 = false →
      (handlerOK ch.dataID ch.group ch.tenant = false →
        (processOne fetch handlerOK m ch).1 = m)
      ∧ (handlerOK ch.dataID ch.group ch.tenant = true →
          (processOne fetch handlerOK m ch).1 =
            mapSetMD5 (mkKey ch.dataID ch.group (normalizeTenant m ch))
              newMD5 m))
    ∧ (∀ msg item,
        fetch ch.dataID ch.group ch.tenant = .err msg →
        isNotFoundErr msg = true →
        mapLookup (mkKey ch.dataID ch.group (normalizeTenant m ch)) m
          = some item →
        item.md5 ≠ "" →
        (processOne fetch handlerOK m ch).1 =
          mapSetMD5 (mkKey ch.dataID ch.group (normalizeTenant m ch)) "" m) := by
  refine ⟨fun content newMD5 hf hu => ⟨fun hh => ?_, fun hh => ?_⟩,
          fun msg item hf hnf hl hne => ?_⟩
  · simp [processOne, hf, hu, hh]
  · simp [processOne, hf, hu, hh]
  · simp [processOne, hf, hnf, hl, hne]

/-- Witness for the amended C1 at concrete inputs: an `Updated` dispatch
with a failing handler leaves the map unchanged, while a `Deleted` dispatch
with a failing handler still resets the fingerprint. -/
theorem c1_witness :
    (processOne wFetchOK2 wHandlerFalse wMapC wChT2).1 = wMapC
    ∧ (processOne wFetchNF wHandlerFalse wMapC wChT2).1 =
        mapSetMD5 (mkKey "d2" "g2" (normalizeTenant wMapC wChT2)) "" wMapC :=
  ⟨((c1_fingerprint_update_policy wFetchOK2 wHandlerFalse wMapC wChT2).1
      "content2" "f2" rfl (by decide)).1 rfl,
   (c1_fingerprint_update_policy wFetchNF wHandlerFalse wMapC wChT2).2
      "config not exist"
      { dataID := "d2", group := "g2", tenant := "t2", md5 := "f1" }
      rfl (by decide) (by decide) (by decide)⟩

/-- Every event the loop body emits — the fetch call and any handler call —
carries the notification's original tenant, not the normalized one
(config_listener.go lines 135, 147, 171 all pass `changed.Tenant`). -/
theorem processOne_events_use_notification_tenant
    (fetch : String → String → String → FetchResult)
    (handlerOK : String → String → String → Bool)
    (m : WatchMap) (ch : Notification) :
    ((processOne fetch handlerOK m ch).2).all
      (fun e => e.tenantArg == ch.tenant) = true := by
  cases hF : fetch ch.dataID ch.group ch.tenant with
  | ok c md =>
    simp only [processOne, hF]
    split
    · simp [Event.tenantArg]
    · split <;> simp [Event.tenantArg]
  | err msg =>
    simp only [processOne, hF]
    split
    · split
      · split <;> simp [Event.tenantArg]
      · simp [Event.tenantArg]
    · simp [Event.tenantArg]

/-- The loop body only ever writes the map at the key formed with the
normalized (backfilled) tenant; every other key is untouched. -/
theorem processOne_preserves_other_keys
    (fetch : String → String → String → FetchResult)
    (handlerOK : String → String → String → Bool)
    (m : WatchMap) (ch : Notification) (k' : String)
    (hk : k' ≠ mkKey ch.dataID ch.group (normalizeTenant m ch)) :
    mapLookup k' (processOne fetch handlerOK m ch).1 = mapLookup k' m := by
  cases hF : fetch ch.dataID ch.group ch.tenant with
  | ok c md =>
    simp only [processOne, hF]
    split
    · rfl
    · split
      · simpa using mapLookup_mapSetMD5_ne _ k' md m hk
      · rfl
  | err msg =>
    simp only [processOne, hF]
    split
    · split
      · split
        · rfl
        · simpa using mapLookup_mapSetMD5_ne _ k' "" m hk
      · rfl
    · rfl

/-- C2 counterexample: the notification's tenant is empty and the Watch Set
holds the same data-id and group under tenant `tenant1`; the adoption does
happen (`normalizeTenant` yields `tenant1`) but the fetch and the handler
are both invoked with the empty tenant from the notification, not with the
adopted one, refuting the claim at this input. -/
theorem c2_counterexample :
    normalizeTenant c2Map c2Ch = "tenant1"
    ∧ (processOne c2Fetch wHandlerTrue c2Map c2Ch).2 =
        [.fetchCall "skill.json" "skill_demo" "",
         .handlerCall "skill.json" "skill_demo" "" true]
    ∧ (∀ e ∈ (processOne c2Fetch wHandlerTrue c2Map c2Ch).2,
        e.tenantArg ≠ "tenant1") := by decide

/-- C2 amended: when the notification's tenant is empty, the tenant of a
stored entry with the same data-id and group is adopted only for the Watch
Set key under which the fingerprint is read and written; the content fetch
and the handler invocation always receive the notification's original
tenant. -/
theorem c2_tenant_backfill_scope
    (fetch : String → String → String → FetchResult)
    (handlerOK : String → String → String → Bool)
    (m : WatchMap) (ch : Notification) :
    ((processOne fetch handlerOK m ch).2).all
      (fun e => e.tenantArg == ch.tenant) = true
    ∧ (∀ k', k' ≠ mkKey ch.dataID ch.group (normalizeTenant m ch) →
        mapLookup k' (processOne fetch handlerOK m ch).1 = mapLookup k' m)
    ∧ (∀ p, ch.tenant = "" →
        m.find? (fun q => q.2.dataID == ch.dataID && q.2.group == ch.group)
          = some p →
        normalizeTenant m ch = p.2.tenant) := by
  refine ⟨processOne_events_use_notification_tenant fetch handlerOK m ch,
          fun k' hk => processOne_preserves_other_keys fetch handlerOK m ch k' hk,
          fun p hch hfind => ?_⟩
  simp [normalizeTenant, hch, hfind]

/-- Witness for the amended C2 at the concrete scenario of the
counterexample's input: events use the empty tenant, an unrelated key is
untouched, and the adopted tenant is the stored entry's `tenant1`. -/
theorem c2_witness :
    ((processOne c2Fetch wHandlerTrue c2Map c2Ch).2).all
      (fun e => e.tenantArg == c2Ch.tenant) = true
    ∧ mapLookup "other_key" (processOne c2Fetch wHandlerTrue c2Map c2Ch).1 =
        mapLookup "other_key" c2Map
    ∧ normalizeTenant c2Map c2Ch = "tenant1" :=
  ⟨(c2_tenant_backfill_scope c2Fetch wHandlerTrue c2Map c2Ch).1,
   (c2_tenant_backfill_scope c2Fetch wHandlerTrue c2Map c2Ch).2.1
     "other_key" (by decide),
   (c2_tenant_backfill_scope c2Fetch wHandlerTrue c2Map c2Ch).2.2
     ("skill.json_skill_demo_tenant1",
      { dataID := "skill.json", group := "skill_demo", tenant := "tenant1",
        md5 := "f1" })
     rfl (by decide)⟩

/-- C6: the long-poll call fails with an error carrying the HTTP status and
the response body on every non-200 status; a 200 with an empty body yields
an empty change list (not an error); and an undecodable body (percent
decoding fails) yields an empty batch, which the loop drops — the batch
processes no notification — while the loop goes on to the next poll. -/
theorem c6_longpoll_outcomes (resp : HttpResponse)
    (fetch : String → String → String → FetchResult)
    (handlerOK : String → String → String → Bool)
    (m : WatchMap) (rest : List LoopStep) :
    (resp.status ≠ 200 → longPoll resp = .transportError resp.status resp.body)
    ∧ (resp.status = 200 → resp.body = [] → longPoll resp = .changes [])
    ∧ (resp.status = 200 → queryUnescape resp.body = none →
        longPoll resp = .changes []
        ∧ processBatch fetch handlerOK m [] = (m, [])
        ∧ watchLoop fetch handlerOK m (.pollOk [] :: rest) =
            (.poll :: (watchLoop fetch handlerOK m rest).1,
             (watchLoop fetch handlerOK m rest).2)) := by
  refine ⟨fun h => ?_, fun h hb => ?_, fun h hdec => ⟨?_, rfl, ?_⟩⟩
  · simp [longPoll, h]
  · simp [longPoll, h, hb]
  · have hb : resp.body ≠ [] := by
      intro hx
      rw [hx] at hdec
      simp [queryUnescape] at hdec
    simp [longPoll, h, hb, parseChangedConfigs, hdec]
  · simp [watchLoop, processBatch]

/-- Witness for C6 at concrete responses: a 500, a 200 with an empty body,
and a 200 whose body is a lone `%` (undecodable). -/
theorem c6_witness :
    longPoll wResp500 = .transportError 500 [104, 105]
    ∧ longPoll wResp200Empty = .changes []
    ∧ (longPoll wRespBad = .changes []
       ∧ processBatch wFetchOK wHandlerTrue [] [] = ([], [])
       ∧ watchLoop wFetchOK wHandlerTrue [] [.pollOk []] =
           (.poll :: (watchLoop wFetchOK wHandlerTrue [] []).1,
            (watchLoop wFetchOK wHandlerTrue [] []).2)) :=
  ⟨(c6_longpoll_outcomes wResp500 wFetchOK wHandlerTrue [] []).1 (by decide),
   (c6_longpoll_outcomes wResp200Empty wFetchOK wHandlerTrue [] []).2.1
     rfl rfl,
   (c6_longpoll_outcomes wRespBad wFetchOK wHandlerTrue [] []).2.2
     rfl (by decide)⟩

/-- C7: startup fails exactly when the record list is empty or no watch
item could be seeded; a record whose fetch fails with not-found is still
seeded with an empty fingerprint and its stale local mirror (when present)
is removed; a record whose fetch fails otherwise contributes nothing and
does not abort the rest of the seeding. -/
theorem c7_seed_policy (env : SeedEnv) (ns : String) :
    (∀ names, (startSyncMultiple env ns names).isFailed = true ↔
        (names = [] ∨ (seedAll env ns names).1 = []))
    ∧ (∀ name c msg, env.fetch name = (c, some msg) →
        isNotFoundErr msg = true →
        seedOne env ns name =
          (some { dataID := "skill.json", group := "skill_" ++ name,
                  tenant := ns, md5 := "" },
           if env.localExists name then [name] else []))
    ∧ (∀ name c msg rest, env.fetch name = (c, some msg) →
        isNotFoundErr msg = false →
        seedOne env ns name = (none, [])
        ∧ seedAll env ns (name :: rest) = seedAll env ns rest) := by
  refine ⟨fun names => ?_, fun name c msg hf hnf => ?_,
          fun name c msg rest hf hnf => ?_⟩
  · unfold startSyncMultiple
    by_cases h1 : names = []
    · simp [h1, SyncStartResult.isFailed]
    · by_cases h2 : (seedAll env ns names).1 = []
      · simp [h1, h2, SyncStartResult.isFailed]
      · simp [h1, h2, SyncStartResult.isFailed]
  · simp [seedOne, hf, hnf]
  · have h1 : seedOne env ns name = (none, []) := by simp [seedOne, hf, hnf]
    exact ⟨h1, by simp [seedAll, h1]⟩

/-- Witness for C7 at a concrete environment: record `a` is absent remotely
(seeded with empty fingerprint, stale mirror removed), record `b` fails
with a non-not-found error (skipped, seeding continues), and the failure
condition is the stated disjunction. -/
theorem c7_witness :
    ((startSyncMultiple wSeedEnv "public" ["a", "b"]).isFailed = true ↔
       (["a", "b"] = [] ∨ (seedAll wSeedEnv "public" ["a", "b"]).1 = []))
    ∧ seedOne wSeedEnv "public" "a" =
        (some { dataID := "skill.json", group := "skill_" ++ "a",
                tenant := "public", md5 := "" },
         if wSeedEnv.localExists "a" then ["a"] else [])
    ∧ (seedOne wSeedEnv "public" "b" = (none, [])
       ∧ seedAll wSeedEnv "public" ["b"] = seedAll wSeedEnv "public" []) :=
  ⟨(c7_seed_policy wSeedEnv "public").1 ["a", "b"],
   (c7_seed_policy wSeedEnv "public").2.1 "a" "" "config not exist"
     (by decide) (by decide),
   (c7_seed_policy wSeedEnv "public").2.2 "b" "" "connection refused" []
     (by decide) (by decide)⟩

/-! ## Round-trip of the wire encoding (claim C5) -/

/-- `hexVal` inverts `hexUpper` on nibbles. -/
theorem hexVal_hexUpper (n : Nat) (h : n < 16) :
    hexVal (hexUpper n) = some n := by
  interval_cases n <;> rfl

/-- An unreserved byte is neither `%` (37) nor `+` (43). -/
theorem isUnreserved_ne (b : Nat) (h : isUnreserved b = true) :
    b ≠ 37 ∧ b ≠ 43 := by
  simp only [isUnreserved, Bool.or_eq_true, Bool.and_eq_true,
    decide_eq_true_eq, beq_iff_eq] at h
  omega

/-- Unescaping undoes the escaping of a single byte at the head of a
stream. -/
theorem queryUnescape_escapeByte (b : Nat) (t : List Nat) (hb : b < 256) :
    queryUnescape (escapeByte b ++ t) =
      (queryUnescape t).map (fun r => b :: r) := by
  by_cases h1 : isUnreserved b = true
  · obtain ⟨h37, h43⟩ := isUnreserved_ne b h1
    have e37 : (b == 37) = false := by simp [h37]
    have e43 : (b == 43) = false := by simp [h43]
    rw [escapeByte, if_pos h1, List.singleton_append, queryUnescape.eq_def]
    simp [e37, e43]
  · by_cases h2 : b = 32
    · subst h2
      rw [show escapeByte 32 = [43] from rfl, List.singleton_append,
        queryUnescape.eq_def]
      simp
    · have hdiv : hexVal (hexUpper (b / 16)) = some (b / 16) :=
        hexVal_hexUpper _ (by omega)
      have hmod : hexVal (hexUpper (b % 16)) = some (b % 16) :=
        hexVal_hexUpper _ (by omega)
      have e32 : (b == 32) = false := by simp [h2]
      rw [escapeByte, if_neg h1, if_neg (by simp [h2])]
      rw [show (37 :: hexUpper (b / 16) :: hexUpper (b % 16) :: []) ++ t =
            37 :: hexUpper (b / 16) :: hexUpper (b % 16) :: t from rfl,
        queryUnescape.eq_def]
      simp [hdiv, hmod, show b / 16 * 16 + b % 16 = b from by omega]

/-- Escaping distributes over the head of a byte sequence. -/
theorem queryEscape_cons (b : Nat) (bs : List Nat) :
    queryEscape (b :: bs) = escapeByte b ++ queryEscape bs := by
  simp [queryEscape]

/-- `QueryUnescape` inverts `QueryEscape` on byte sequences. -/
theorem queryUnescape_queryEscape (bs : List Nat)
    (h : ∀ b ∈ bs, b < 256) : queryUnescape (queryEscape bs) = some bs := by
  induction bs with
  | nil => simp [queryEscape, queryUnescape]
  | cons b rest ih =>
    rw [queryEscape_cons,
      queryUnescape_escapeByte b _ (h b (List.mem_cons_self b rest)),
      ih (fun x hx => h x (List.mem_cons_of_mem b hx))]
    rfl

/-- Splitting a delimiter-free group yields the group alone. -/
theorem splitOnByte_no_delim (d : Nat) (e : List Nat)
    (h : ∀ b ∈ e, b ≠ d) : splitOnByte d e = [e] := by
  induction e with
  | nil => rfl
  | cons b rest ih =>
    have hb : b ≠ d := h b (List.mem_cons_self b rest)
    simp [splitOnByte, hb, ih (fun x hx => h x (List.mem_cons_of_mem b hx))]

/-- Splitting past a delimiter peels off the delimiter-free group before
it. -/
theorem splitOnByte_append (d : Nat) (e rest : List Nat)
    (h : ∀ b ∈ e, b ≠ d) :
    splitOnByte d (e ++ d :: rest) = e :: splitOnByte d rest := by
  induction e with
  | nil => simp [splitOnByte]
  | cons b e' ih =>
    have hb : b ≠ d := h b (List.mem_cons_self b e')
    simp [splitOnByte, hb, ih (fun x hx => h x (List.mem_cons_of_mem b hx))]

/-- Every byte of a safe item's serialized entry is a byte and is not the
entry delimiter `\x01`. -/
theorem entryBytes_bytes (it : WireItem) (h : itemSafe it) :
    ∀ b ∈ entryBytes it, b < 256 ∧ b ≠ 1 := by
  obtain ⟨hd, hg, ht, hm⟩ := h
  intro b hb
  have hcases : b ∈ it.dataID ∨ b ∈ it.group ∨ b ∈ it.md5 ∨
      b ∈ it.tenant ∨ b = 2 := by
    by_cases hten : it.tenant = []
    · unfold entryBytes at hb
      rw [if_pos hten] at hb
      simp only [List.mem_append, List.mem_cons] at hb
      tauto
    · unfold entryBytes at hb
      rw [if_neg hten] at hb
      simp only [List.mem_append, List.mem_cons] at hb
      tauto
  rcases hcases with hb' | hb' | hb' | hb' | rfl
  · exact ⟨(hd b hb').1, (hd b hb').2.1⟩
  · exact ⟨(hg b hb').1, (hg b hb').2.1⟩
  · exact ⟨(hm b hb').1, (hm b hb').2.1⟩
  · exact ⟨(ht b hb').1, (ht b hb').2.1⟩
  · omega

/-- Parsing a safe item's serialized entry recovers its identity triple
(the fingerprint is not echoed back). -/
theorem parseLine_entryBytes (it : WireItem) (h : itemSafe it) :
    parseLine (entryBytes it) =
      some { dataID := it.dataID, group := it.group, tenant := it.tenant,
             md5 := [] } := by
  obtain ⟨hd, hg, ht, hm⟩ := h
  have hd2 : ∀ b ∈ it.dataID, b ≠ 2 := fun b hb => (hd b hb).2.2
  have hg2 : ∀ b ∈ it.group, b ≠ 2 := fun b hb => (hg b hb).2.2
  have ht2 : ∀ b ∈ it.tenant, b ≠ 2 := fun b hb => (ht b hb).2.2
  have hm2 : ∀ b ∈ it.md5, b ≠ 2 := fun b hb => (hm b hb).2.2
  by_cases hten : it.tenant = []
  · have hsplit : splitOnByte 2 (entryBytes it) =
        [it.dataID, it.group, it.md5] := by
      unfold entryBytes
      rw [if_pos hten]
      simp only [List.append_assoc, List.cons_append, List.nil_append]
      rw [splitOnByte_append 2 it.dataID _ hd2,
        splitOnByte_append 2 it.group _ hg2, splitOnByte_no_delim 2 it.md5 hm2]
    have hne : entryBytes it ≠ [] := by
      unfold entryBytes
      rw [if_pos hten]
      simp
    simp [parseLine, hne, hsplit, hten]
  · have hsplit : splitOnByte 2 (entryBytes it) =
        [it.dataID, it.group, it.md5, it.tenant] := by
      unfold entryBytes
      rw [if_neg hten]
      simp only [List.append_assoc, List.cons_append, List.nil_append]
      rw [splitOnByte_append 2 it.dataID _ hd2,
        splitOnByte_append 2 it.group _ hg2,
        splitOnByte_append 2 it.md5 _ hm2,
        splitOnByte_no_delim 2 it.tenant ht2]
    have hne : entryBytes it ≠ [] := by
      unfold entryBytes
      rw [if_neg hten]
      simp
    simp [parseLine, hne, hsplit]

/-- Every byte of the concatenated serialized payload is a byte value. -/
theorem payload_bytes (items : List WireItem)
    (h : ∀ it ∈ items, itemSafe it) :
    ∀ b ∈ (items.map (fun it => entryBytes it ++ [1])).flatten, b < 256 := by
  induction items with
  | nil => simp
  | cons it rest ih =>
    intro b hb
    simp only [List.map_cons, List.flatten_cons, List.mem_append,
      List.mem_cons, List.not_mem_nil, or_false] at hb
    rcases hb with (hb | rfl) | hb
    · exact (entryBytes_bytes it (h it (List.mem_cons_self it rest)) b hb).1
    · omega
    · exact ih (fun x hx => h x (List.mem_cons_of_mem it hx)) b hb

/-- Splitting the concatenated payload on the entry delimiter recovers the
serialized entries (plus the empty trailing group after the final
delimiter). -/
theorem payload_split (items : List WireItem)
    (h : ∀ it ∈ items, itemSafe it) :
    splitOnByte 1 ((items.map (fun it => entryBytes it ++ [1])).flatten) =
      items.map entryBytes ++ [[]] := by
  induction items with
  | nil => simp [splitOnByte]
  | cons it rest ih =>
    have h1 : ∀ b ∈ entryBytes it, b ≠ 1 := fun b hb =>
      (entryBytes_bytes it (h it (List.mem_cons_self it rest)) b hb).2
    simp only [List.map_cons, List.flatten_cons]
    rw [List.append_assoc, List.singleton_append,
      splitOnByte_append 1 _ _ h1,
      ih (fun x hx => h x (List.mem_cons_of_mem it hx))]
    simp

/-- Parsing the split payload yields one item per entry, carrying the
original identity triples, in order. -/
theorem filterMap_entries (items : List WireItem)
    (h : ∀ it ∈ items, itemSafe it) :
    (items.map entryBytes ++ [[]]).filterMap parseLine =
      items.map (fun it =>
        { dataID := it.dataID, group := it.group, tenant := it.tenant,
          md5 := [] }) := by
  induction items with
  | nil => simp [parseLine]
  | cons it rest ih =>
    simp only [List.map_cons, List.cons_append, List.filterMap_cons,
      parseLine_entryBytes it (h it (List.mem_cons_self it rest)),
      ih (fun x hx => h x (List.mem_cons_of_mem it hx))]

/-- C5: serializing a Watch Set whose fields are wire-safe (proper bytes
avoiding the delimiters `\x01` and `\x02`) with `buildListeningConfigs` and
decoding the payload with `parseChangedConfigs` recovers exactly the
original (data-id, group, tenant) triples, in order; the tenant comes back
empty exactly for the entries that omitted it. -/
theorem c5_roundtrip (items : List WireItem)
    (h : ∀ it ∈ items, itemSafe it) :
    (parseChangedConfigs (buildListeningConfigs items)).map wireTriple =
      items.map wireTriple := by
  unfold buildListeningConfigs parseChangedConfigs
  rw [queryUnescape_queryEscape _ (payload_bytes items h)]
  dsimp only
  rw [payload_split items h, filterMap_entries items h]
  simp [wireTriple]

/-- Witness for C5 at a concrete two-entry Watch Set (one entry without a
tenant, one with). -/
theorem c5_witness :
    (parseChangedConfigs (buildListeningConfigs wItems)).map wireTriple =
      wItems.map wireTriple :=
  c5_roundtrip wItems (by simp only [itemSafe, fieldSafe]; decide)

set_option maxRecDepth 100000 in
/-- C10 counterexample: the fingerprint function is not injective.  The two
explicit 128-byte messages `collideA` and `collideB` differ (in six bytes)
yet `CalculateMD5` maps them to the same 32-character hex digest, so
`fingerprint(a) = fingerprint(b)` does not imply `a = b`: the claimed
equivalence is false. -/
theorem c10_counterexample :
    ¬ (∀ a b : List Nat, CalculateMD5 a = CalculateMD5 b ↔ a = b) := by
  intro hcl
  have h1 : CalculateMD5 collideA = CalculateMD5 collideB := by decide
  have h2 : collideA ≠ collideB := by decide
  exact h2 ((hcl collideA collideB).mp h1)

set_option maxRecDepth 100000 in
/-- C10 amended: the fingerprint function is deterministic — equal contents
always produce equal fingerprints — but equality of fingerprints does not
imply equality of contents: the explicit distinct messages `collideA` and
`collideB` share the same fingerprint. -/
theorem c10_fingerprint_deterministic_not_injective :
    (∀ a b : List Nat, a = b → CalculateMD5 a = CalculateMD5 b)
    ∧ CalculateMD5 collideA = CalculateMD5 collideB
    ∧ collideA ≠ collideB :=
  ⟨fun _ _ h => h ▸ rfl, by decide, by decide⟩

/-- Witness for the amended C10: determinism applied at a concrete
content. -/
theorem c10_witness : CalculateMD5 [97, 98, 99] = CalculateMD5 [97, 98, 99] :=
  c10_fingerprint_deterministic_not_injective.1 [97, 98, 99] [97, 98, 99] rfl

/-- Witness for C8 at a concrete trace: a transport error followed by
cancellation observed at the top of the next iteration polls once, sleeps
the 5-second backoff, then stops with no error before any retry. -/
theorem c8_witness :
    watchLoop wFetchOK wHandlerTrue [] [.pollErr false "boom", .cancelledAtTop]
      = ([.poll, .sleep 5, .stop], [], none) :=
  (c8_backoff_and_cancel wFetchOK wHandlerTrue [] "boom" []).2.2

end NacosSpec
